import Mathlib

/-!
Shallow embedding of the cache-simulation and fault-injection plugin core
(tests/plugin/cache-sim and tests/plugin/fault-inject).

The definitions below are translated from the C sources:
  * cache-sim.h / cache-common.h : data model (cache entries, mask info,
    policies, the cache record, the injection plan);
  * cache-common.c : init_cache_struct, cache_get_next_victim,
    cache_load_common, cache_store_common, cache_get_addr_common,
    cache_invalidate_block_common, cache_block_valid_common,
    cache_validate_injection_common;
  * arm-disas.c : decode_load_store and INSN_IS_COPROC_LOAD_STORE
    (bit-field extraction macros inlined);
  * cache.c / fault-inject.c : get_insn_bits, check_insn_count,
    receive_injection_info.

Machine integers are modelled as Nat with explicit reduction modulo 2^32
(arch_word_t = uint32_t) at the points where the C code truncates.  The
cache table (rows x associativity array of entries) is a list of rows;
the C row pointers stride over a contiguous allocation, but every access
in the source stays inside the first `associativity` entries of a row, so
a list of rows of length `associativity` is a faithful view.  The union
`replace` (LCG seed for RANDOM / per-row cursor array for ROUND_ROBIN) is
modelled as two fields of which only the one selected by the policy is
ever read, exactly as in the source.
-/

/-- Modulus of `arch_word_t` (uint32_t) arithmetic. -/
def wordMod : Nat := 4294967296

/-- CACHE_DIRTY from cache-common.h: UINT8_MAX marks an entry invalid. -/
def CACHE_DIRTY : Nat := 255

/-- CACHE_NOT_DIRTY from cache-common.h: 0 marks an entry valid. -/
def CACHE_NOT_DIRTY : Nat := 0

/-- LOG_2 macro from cache-sim.h: `31 - __builtin_clz(x)`, the index of
the highest set bit of a nonzero 32-bit value (the floor of the base-2
logarithm).  Computed here as the largest i < 32 with 2^i ≤ x, which is
the same number for x in [1, 2^32); clz is undefined at x = 0 in C. -/
def LOG_2 (x : Nat) : Nat :=
  (List.range 32).foldl (fun acc i => if 1 <<< i ≤ x then i else acc) 0

/-- CREATE_BIT_MASK macro from cache-sim.h: `(1U << x) - 1`. -/
def CREATE_BIT_MASK (x : Nat) : Nat := (1 <<< x) - 1

/-- RANDOM_U32 macro from cache-common.h: `(uint32_t)(prev * 48271U)`. -/
def RANDOM_U32 (prev : Nat) : Nat := (prev * 48271) % wordMod

/-- replace_policy_t (enum cache_policy_e). -/
inductive ReplacePolicy where
  | roundRobin
  | random
deriving DecidableEq, Repr

/-- allocate_policy_t (enum cache_allocate_e). -/
inductive AllocatePolicy where
  | writeAllocate
  | noWriteAllocate
deriving DecidableEq, Repr

/-- cache_result_t: CACHE_RESULT_MISS = 0, CACHE_RESULT_HIT = 1. -/
inductive CacheResult where
  | miss
  | hit
deriving DecidableEq, Repr

/-- cache_entry_t: a tag (arch_word_t) and a dirty byte (uint8_t);
`dirty = 0` means the entry is valid, nonzero means invalid. -/
structure CacheEntry where
  tag : Nat
  dirty : Nat
deriving DecidableEq, Repr

/-- The value every entry holds right after `memset(data, ~0, byteSize)`
in init_cache_struct: all tag bits set, dirty byte 0xFF. -/
def memsetEntry : CacheEntry := { tag := wordMod - 1, dirty := CACHE_DIRTY }

/-- cache_mask_t from cache-sim.h. -/
structure CacheMask where
  blockOffsetMask : Nat
  rowMask : Nat
  rowShift : Nat
  tagShift : Nat
deriving DecidableEq, Repr

/-- cache_t (struct cache_stats) from cache-sim.h.  `replacePrev` and
`roundRobin` model the two arms of the `replace` union. -/
structure Cache where
  table : List (List CacheEntry)
  load_hits : Nat
  load_misses : Nat
  store_hits : Nat
  store_misses : Nat
  compulsory : Nat
  evictions : Nat
  cacheSize : Nat
  rows : Nat
  associativity : Nat
  blockSize : Nat
  validFlag : Bool
  replacePrev : Nat
  roundRobin : List Nat
  replacePolicy : ReplacePolicy
  allocPolicy : AllocatePolicy
  maskInfo : CacheMask
deriving DecidableEq, Repr

/-- init_cache_struct from cache-common.c.  The C code leaves the
miss_type_counts fields untouched; the singleton caches have static
storage duration, so those fields start at zero, which is what we record
here.  The round-robin array is allocated (zero-filled) only for
POLICY_ROUND_ROBIN; reads of the other union arm never happen under the
matching policy, so initializing both arms is observationally equal. -/
def init_cache_struct (cacheSize associativity blockSize : Nat)
    (replace_policy : ReplacePolicy) (alloc_policy : AllocatePolicy) : Cache :=
  let rowBytes := blockSize * associativity
  let numRows := cacheSize / rowBytes
  let blockOffsetBits := LOG_2 blockSize
  let numRowBits := LOG_2 numRows
  { table := List.replicate numRows (List.replicate associativity memsetEntry)
    load_hits := 0
    load_misses := 0
    store_hits := 0
    store_misses := 0
    compulsory := 0
    evictions := 0
    cacheSize := cacheSize
    rows := numRows
    associativity := associativity
    blockSize := blockSize
    validFlag := true
    replacePrev := 0
    roundRobin := List.replicate numRows 0
    replacePolicy := replace_policy
    allocPolicy := alloc_policy
    maskInfo :=
      { blockOffsetMask := CREATE_BIT_MASK blockOffsetBits
        rowMask := CREATE_BIT_MASK numRowBits
        rowShift := blockOffsetBits
        tagShift := blockOffsetBits + numRowBits } }

/-- The hit-scan loop shared by cache_load_common and cache_store_common:
`for (i = 0; i < cp->associativity; i++) if (!row[i].dirty && row[i].tag == tagBits) hit`. -/
def cache_row_hit (assoc : Nat) (cacheRow : List CacheEntry) (tagBits : Nat) : Bool :=
  (List.range assoc).any fun i =>
    ((cacheRow.getD i memsetEntry).dirty == 0) && ((cacheRow.getD i memsetEntry).tag == tagBits)

/-- The invalid-slot scan shared by cache_load_common and
cache_store_common: the first index i < associativity with `row[i].dirty`
truthy, if any. -/
def cache_first_invalid (assoc : Nat) (cacheRow : List CacheEntry) : Option Nat :=
  (List.range assoc).find? fun i => (cacheRow.getD i memsetEntry).dirty != 0

/-- cache_get_next_victim from cache-common.c: victim index plus the
cache with its replacement state advanced. -/
def cache_get_next_victim (cp : Cache) (rowIdx : Nat) : Nat × Cache :=
  match cp.replacePolicy with
  | ReplacePolicy.random =>
      let prev := RANDOM_U32 cp.replacePrev
      (prev % cp.associativity, { cp with replacePrev := prev })
  | ReplacePolicy.roundRobin =>
      let nextRowIdx := cp.roundRobin.getD rowIdx 0
      let bumped := nextRowIdx + 1
      let bumped := if cp.associativity ≤ bumped then 0 else bumped
      (nextRowIdx, { cp with roundRobin := cp.roundRobin.set rowIdx bumped })

/-- cache_load_common from cache-common.c. -/
def cache_load_common (cp : Cache) (vaddr : Nat) : CacheResult × Cache :=
  if cp.validFlag = false then (CacheResult.miss, cp) else
  let addr := vaddr % wordMod
  let rowIdx := (addr >>> cp.maskInfo.rowShift) &&& cp.maskInfo.rowMask
  let tagBits := addr >>> cp.maskInfo.tagShift
  let cacheRow := cp.table.getD rowIdx []
  if cache_row_hit cp.associativity cacheRow tagBits then
    (CacheResult.hit, { cp with load_hits := cp.load_hits + 1 })
  else
    let cp1 := { cp with load_misses := cp.load_misses + 1 }
    let found :=
      match cache_first_invalid cp.associativity cacheRow with
      | some i => (i, cp1)
      | none => cache_get_next_victim cp1 rowIdx
    let newRow := cacheRow.set found.1 { tag := tagBits, dirty := CACHE_NOT_DIRTY }
    (CacheResult.miss, { found.2 with table := found.2.table.set rowIdx newRow })

/-- cache_store_common from cache-common.c.  The write-allocate block
locates a victim slot (running on hits and misses alike) but never
writes the entry; only the replacement state can change, and only when
the row holds no invalid entry. -/
def cache_store_common (cp : Cache) (vaddr : Nat) : CacheResult × Cache :=
  if cp.validFlag = false then (CacheResult.miss, cp) else
  let addr := vaddr % wordMod
  let rowIdx := (addr >>> cp.maskInfo.rowShift) &&& cp.maskInfo.rowMask
  let tagBits := addr >>> cp.maskInfo.tagShift
  let cacheRow := cp.table.getD rowIdx []
  let hitRes := cache_row_hit cp.associativity cacheRow tagBits
  let cp1 :=
    if cp.allocPolicy = AllocatePolicy.writeAllocate then
      match cache_first_invalid cp.associativity cacheRow with
      | some _ => cp
      | none => (cache_get_next_victim cp rowIdx).2
    else cp
  if hitRes then (CacheResult.hit, { cp1 with store_hits := cp1.store_hits + 1 })
  else (CacheResult.miss, { cp1 with store_misses := cp1.store_misses + 1 })

/-- cache_get_addr_common from cache-common.c:
`(tag << tagShift) | (cacheRow << rowShift)` computed in arch_word_t
(the tag shift happens in 32-bit arithmetic, the final result is
truncated to arch_word_t), or 0 when the cache struct is invalid. -/
def cache_get_addr_common (cp : Cache) (cacheRow cacheSet : Nat) : Nat :=
  if cp.validFlag = false then 0 else
  ((((cp.table.getD cacheRow []).getD cacheSet memsetEntry).tag <<< cp.maskInfo.tagShift) % wordMod
    ||| (cacheRow <<< cp.maskInfo.rowShift)) % wordMod

/-- cache_invalidate_block_common from cache-common.c: sets the dirty
byte of one entry to CACHE_DIRTY, touching nothing else. -/
def cache_invalidate_block_common (cp : Cache) (row block : Nat) : Cache :=
  if cp.validFlag = false then cp else
  let oldRow := cp.table.getD row []
  let oldEntry := oldRow.getD block memsetEntry
  { cp with table := cp.table.set row (oldRow.set block { oldEntry with dirty := CACHE_DIRTY }) }

/-- cache_block_valid_common from cache-common.c:
`!(cp->table[row][block].dirty)` as a uint8_t, 0 when the cache struct
is invalid. -/
def cache_block_valid_common (cp : Cache) (row block : Nat) : Nat :=
  if cp.validFlag = false then 0 else
  if ((cp.table.getD row []).getD block memsetEntry).dirty = 0 then 1 else 0

/-- cache_name_t from injection.h. -/
inductive CacheName where
  | icache
  | dcache
  | l2cache
deriving DecidableEq, Repr

/-- injection_plan_t as used by cache-common.c and fault-inject.c
(sleepCycles, cacheRow, cacheSet, cacheWord, cacheName). -/
structure InjectionPlan where
  sleepCycles : Nat
  cacheRow : Nat
  cacheSet : Nat
  cacheWord : Nat
  cacheName : CacheName
deriving DecidableEq, Repr

/-- cache_validate_injection_common from cache-common.c.  Note the word
bound: the source compares `plan->cacheWord` against
`(cp->blockSize * sizeof(arch_word_t)) - 1`, i.e. blockSize * 4 - 1. -/
def cache_validate_injection_common (cp : Cache) (plan : InjectionPlan) : Int :=
  if cp.validFlag = false then -2 else
  if plan.cacheRow > cp.rows - 1 ∨ plan.cacheSet > cp.associativity - 1
      ∨ plan.cacheWord > cp.blockSize * 4 - 1 then -1
  else 0

/-- insn_op_t from arm-disas.h (fault-inject variant, the one the .c
files are written against): the bit-field block, the immediate union
(one active immediate per instruction, stored as its zero-extended
value), and the recorded enum value of the instruction kind. -/
structure InsnOp where
  cond : Nat
  Rn : Nat
  Rt : Nat
  Rt2 : Nat
  Rm : Nat
  Rd : Nat
  opcType : Nat
  add : Nat
  index : Nat
  wback : Nat
  coproc : Nat
  imm : Nat
  kind : Nat
deriving DecidableEq, Repr

/-- A zero-filled insn_op_t to decode into. -/
def InsnOp.zero : InsnOp :=
  { cond := 0, Rn := 0, Rt := 0, Rt2 := 0, Rm := 0, Rd := 0, opcType := 0
    add := 0, index := 0, wback := 0, coproc := 0, imm := 0, kind := 0 }

/-- NOT_LOAD_STORE (= 0) shared by the decode enums. -/
def NOT_LOAD_STORE : Nat := 0

/-- load_store_e store values: STR_TYPE_BASE = 0x001 onward. -/
def STR_REG_IMM : Nat := 0x001

/-- STR_REG = STR_TYPE_BASE + 1. -/
def STR_REG : Nat := 0x002

/-- STR_REG_UNPRIV = STR_TYPE_BASE + 2. -/
def STR_REG_UNPRIV : Nat := 0x003

/-- STR_REG_IMM_BYTE = STR_TYPE_BASE + 3. -/
def STR_REG_IMM_BYTE : Nat := 0x004

/-- STR_REG_BYTE = STR_TYPE_BASE + 4. -/
def STR_REG_BYTE : Nat := 0x005

/-- STR_REG_BYTE_UNPRIV = STR_TYPE_BASE + 5. -/
def STR_REG_BYTE_UNPRIV : Nat := 0x006

/-- load_store_e load values: LD_TYPE_BASE = 0x100 onward. -/
def LD_REG_IMM : Nat := 0x100

/-- LD_REG_LIT = LD_TYPE_BASE + 1. -/
def LD_REG_LIT : Nat := 0x101

/-- LD_REG = LD_TYPE_BASE + 2. -/
def LD_REG : Nat := 0x102

/-- LD_REG_UNPRIV = LD_TYPE_BASE + 3. -/
def LD_REG_UNPRIV : Nat := 0x103

/-- LD_REG_IMM_BYTE = LD_TYPE_BASE + 4. -/
def LD_REG_IMM_BYTE : Nat := 0x104

/-- LD_REG_LIT_BYTE = LD_TYPE_BASE + 5. -/
def LD_REG_LIT_BYTE : Nat := 0x105

/-- LD_REG_BYTE = LD_TYPE_BASE + 6. -/
def LD_REG_BYTE : Nat := 0x106

/-- LD_REG_BYTE_UNPRIV = LD_TYPE_BASE + 7. -/
def LD_REG_BYTE_UNPRIV : Nat := 0x107

/-- ldst_enc_e LDST_INVALID. -/
def LDST_INVALID : Nat := 0

/-- ldst_enc_e LDST_UNPRIV. -/
def LDST_UNPRIV : Nat := 1

/-- ldst_enc_e LDST_IMM. -/
def LDST_IMM : Nat := 2

/-- ldst_enc_e LDST_LIT. -/
def LDST_LIT : Nat := 3

/-- ldst_enc_e LDST_REG. -/
def LDST_REG : Nat := 4

/-- GET_LDST_OP1_BITS: instruction bits [24:20]. -/
def GET_LDST_OP1_BITS (bits : Nat) : Nat := (bits >>> 20) &&& 0x1F

/-- GET_LDST_RN_BITS: instruction bits [19:16]. -/
def GET_LDST_RN_BITS (bits : Nat) : Nat := (bits >>> 16) &&& 0xF

/-- GET_LDST_A_BIT: instruction bit 25. -/
def GET_LDST_A_BIT (bits : Nat) : Nat := (bits >>> 25) &&& 0x1

/-- GET_LDST_RT_BITS: instruction bits [15:12]. -/
def GET_LDST_RT_BITS (bits : Nat) : Nat := (bits >>> 12) &&& 0xF

/-- GET_LDST_COND: instruction bits [31:28]. -/
def GET_LDST_COND (bits : Nat) : Nat := (bits >>> 28) &&& 0xF

/-- GET_LDST_IMM12: instruction bits [11:0]. -/
def GET_LDST_IMM12 (bits : Nat) : Nat := bits &&& 0xFFF

/-- GET_LDST_IMM5: the source macro masks with the imm12 mask and then
shifts right by 7, yielding bits [11:7]. -/
def GET_LDST_IMM5 (bits : Nat) : Nat := (bits &&& 0xFFF) >>> 7

/-- GET_LDST_RM_BITS: instruction bits [3:0]. -/
def GET_LDST_RM_BITS (bits : Nat) : Nat := bits &&& 0xF

/-- GET_LDST_TYPE: instruction bits [6:5]. -/
def GET_LDST_TYPE (bits : Nat) : Nat := (bits >>> 5) &&& 0x3

/-- The classification switch of decode_load_store (ARM ARM table
A5-15), on op1 = bits [24:20], Rn = bits [19:16] and the A bit
(bit 25): returns the load_store_e value and the ldst_enc_e encoding
kind. -/
def ldst_classify (op1 Rn A : Nat) : Nat × Nat :=
  if op1 &&& 0x1 = 0 then
    if op1 &&& 0x4 = 0 then
      if op1 &&& 0x12 = 0x02 then (STR_REG_UNPRIV, LDST_UNPRIV)
      else if A ≠ 0 then (STR_REG, LDST_REG)
      else (STR_REG_IMM, LDST_IMM)
    else
      if op1 &&& 0x12 = 0x02 then (STR_REG_BYTE_UNPRIV, LDST_UNPRIV)
      else if A ≠ 0 then (STR_REG_BYTE, LDST_REG)
      else (STR_REG_IMM_BYTE, LDST_IMM)
  else
    if op1 &&& 0x4 = 0 then
      if op1 &&& 0x12 = 0x02 then (LD_REG_UNPRIV, LDST_UNPRIV)
      else if A ≠ 0 then (LD_REG, LDST_REG)
      else if Rn = 0xF then (LD_REG_LIT, LDST_LIT)
      else (LD_REG_IMM, LDST_IMM)
    else
      if op1 &&& 0x12 = 0x02 then (LD_REG_BYTE_UNPRIV, LDST_UNPRIV)
      else if A ≠ 0 then (LD_REG_BYTE, LDST_REG)
      else if Rn = 0xF then (LD_REG_LIT_BYTE, LDST_LIT)
      else (LD_REG_IMM_BYTE, LDST_IMM)

/-- decode_load_store from arm-disas.c (regular load/store word/byte,
ARM ARM table A5-15): classification switch plus operand extraction.
Returns the load_store_e value and the updated insn_op_t.  Note the
operand extraction computes `P = op1 & 0x10` and then
`index = (P == 0x1)` and `wback = (P == 0x0) || ((op1 & 0x2) == 0x2)`
exactly as the source does. -/
def decode_load_store (insn_data : InsnOp) (insn_bits : Nat) : Nat × InsnOp :=
  let op1 := GET_LDST_OP1_BITS insn_bits
  let Rn := GET_LDST_RN_BITS insn_bits
  let A := GET_LDST_A_BIT insn_bits
  let classified : Nat × Nat := ldst_classify op1 Rn A
  let returnVal := classified.1
  let encodeType := classified.2
  if returnVal = 0 then (returnVal, insn_data) else
  let P := op1 &&& 0x10
  let indexVal : Nat := if P = 0x1 then 1 else 0
  let wbackVal : Nat := if P = 0x0 ∨ op1 &&& 0x2 = 0x2 then 1 else 0
  let d1 := { insn_data with
                add := op1 &&& 0x08
                Rt := GET_LDST_RT_BITS insn_bits
                Rn := Rn
                cond := GET_LDST_COND insn_bits }
  let d2 :=
    if encodeType = LDST_UNPRIV then
      if A ≠ 0 then
        { d1 with imm := GET_LDST_IMM5 insn_bits
                  Rm := GET_LDST_RM_BITS insn_bits
                  opcType := GET_LDST_TYPE insn_bits }
      else { d1 with imm := GET_LDST_IMM12 insn_bits }
    else if encodeType = LDST_REG then
      { d1 with imm := GET_LDST_IMM5 insn_bits
                Rm := GET_LDST_RM_BITS insn_bits
                opcType := GET_LDST_TYPE insn_bits
                index := indexVal
                wback := wbackVal }
    else if encodeType = LDST_IMM then
      { d1 with imm := GET_LDST_IMM12 insn_bits
                index := indexVal
                wback := wbackVal }
    else
      { d1 with imm := GET_LDST_IMM12 insn_bits }
  (returnVal, { d2 with kind := returnVal })

/-- cp_load_store_e CP_STR = STR_CP_TYPE_BASE = 0x3001. -/
def CP_STR : Nat := 0x3001

/-- cp_load_store_e CP_LD_IMM = LD_CP_TYPE_BASE = 0x3100. -/
def CP_LD_IMM : Nat := 0x3100

/-- cp_load_store_e CP_LD_LIT. -/
def CP_LD_LIT : Nat := 0x3101

/-- cp_load_store_e CP_MCR = CP_REG_TYPE_BASE = 0x3200. -/
def CP_MCR : Nat := 0x3200

/-- cp_load_store_e CP_MRC. -/
def CP_MRC : Nat := 0x3201

/-- The classification part of INSN_IS_COPROC_LOAD_STORE (table
A5-22): op1 class check, floating-point coprocessor (0xA) rejection,
then the store / load-immediate / load-literal discrimination. -/
def coproc_classify (insn : Nat) : Nat :=
  let arm_op1 := ((insn >>> 25) &&& 0x7) &&& 0x6
  let op1_bits := ((insn >>> 20) &&& 0x3F) &&& 0x3B
  let cp_bits := ((insn >>> 8) &&& 0xF) &&& 0xE
  if arm_op1 = 0x6 then
    if cp_bits ≠ 0xA then
      if op1_bits ≠ 0 then
        if op1_bits &&& 0x1 = 0x1 then
          if 1 < op1_bits then
            if (insn >>> 16) &&& 0xF = 0xF then CP_LD_LIT else CP_LD_IMM
          else NOT_LOAD_STORE
        else CP_STR
      else NOT_LOAD_STORE
    else NOT_LOAD_STORE
  else NOT_LOAD_STORE

/-- INSN_IS_COPROC_LOAD_STORE from arm-disas.c (table A5-22): checks the
top-level op1 bits for the coprocessor class, masks bit 0 off the
coprocessor number (`cp_bits = GET_COPROC_CP_BITS(insn) & 0xE`), rejects
the floating-point coprocessor (0xA), classifies store/load forms, and
on success stores the operand fields, including `coproc := cp_bits`. -/
def INSN_IS_COPROC_LOAD_STORE (insn_data : InsnOp) (insn : Nat) : Nat × InsnOp :=
  let arm_op1 := ((insn >>> 25) &&& 0x7) &&& 0x6
  let cp_bits := ((insn >>> 8) &&& 0xF) &&& 0xE
  let returnVal := coproc_classify insn
  if returnVal = 0 then (returnVal, insn_data) else
  let P := arm_op1 &&& 0x10
  (returnVal,
    { insn_data with
        Rn := GET_LDST_RN_BITS insn
        imm := insn &&& 0xFF
        Rd := GET_LDST_RT_BITS insn
        cond := GET_LDST_COND insn
        coproc := cp_bits
        index := if P = 0x1 then 1 else 0
        wback := if P = 0x0 ∨ arm_op1 &&& 0x2 = 0x2 then 1 else 0
        kind := returnVal })

/-- dcache_is_cache_inst from dcache.c: recognizes the DCISW control
sequence on the decoded operand record. -/
def dcache_is_cache_inst (d : InsnOp) : Bool :=
  (d.coproc == 0xE) && (d.opcType == 0x0) && (d.Rn == 0x7) && (d.Rm == 0x6) && (d.Rt2 == 0x2)

/-- icache_is_cache_inst from icache.c: recognizes the ICIALLU control
sequence on the decoded operand record. -/
def icache_is_cache_inst (d : InsnOp) : Bool :=
  (d.coproc == 0xE) && (d.opcType == 0x0) && (d.Rn == 0x7) && (d.Rm == 0x5) && (d.Rt2 == 0x0)

/-- get_insn_bits from cache.c / fault-inject.c: reads the raw
instruction bytes (a guint8 array, little-endian) and assembles them
into one arch_word_t with `insn_bits |= data[i] << (i*8)` for i from
`insn_size - 1` down to 0.  The `if (insn_size != 4)` branch in the
source has an empty body (a comment only), so no size is ever refused;
the fold below is total in the length of the byte list exactly as the
C loop is total in insn_size. -/
def get_insn_bits (insn_data : List Nat) : Nat :=
  let insn_size := insn_data.length
  (List.range insn_size).foldr (fun i acc => acc ||| ((insn_data.getD i 0) <<< (i * 8))) 0

/-- The values received over the socket during one injection exchange,
in the order fault-inject.c reads them: cache row, cache set, cache
name, and (only after validation) the word within the block. -/
structure SocketArgs where
  row : Nat
  set : Nat
  name : CacheName
  word : Nat
deriving DecidableEq, Repr

/-- The fault-inject plugin state relevant to check_insn_count:
`faultDone` (0 = armed, 1 = inert), the instruction counter, the current
injection plan and the three cache singletons. -/
structure FiState where
  faultDone : Bool
  insnCount : Nat
  plan : InjectionPlan
  icache : Cache
  dcache : Cache
  l2cache : Cache
deriving DecidableEq, Repr

/-- The switch on plan.cacheName appearing in check_insn_count and
receive_injection_info. -/
def selectCache (st : FiState) (n : CacheName) : Cache :=
  match n with
  | CacheName.icache => st.icache
  | CacheName.dcache => st.dcache
  | CacheName.l2cache => st.l2cache

/-- receive_injection_info from fault-inject.c.  get_socket_args stores
row, set and name into the plan; the *_validate_injection switch then
runs with the plan's cacheWord still holding its previous value (the
word is received only afterwards); the block-validity byte is sent to
the collaborator; finally cacheWord is stored.  The range-error message
goes to the plugin log, not to the socket.  Returns the new state, the
flag telling whether the invalid-parameter error was logged, and the
validity byte that was sent. -/
def receive_injection_info (st : FiState) (args : SocketArgs) : FiState × Bool × Nat :=
  let plan1 := { st.plan with cacheRow := args.row, cacheSet := args.set, cacheName := args.name }
  let invalid := cache_validate_injection_common (selectCache st plan1.cacheName) plan1 != 0
  let validByte := cache_block_valid_common (selectCache st plan1.cacheName) plan1.cacheRow plan1.cacheSet
  let plan2 := { plan1 with cacheWord := args.word }
  ({ st with plan := plan2 }, invalid, validByte)

/-- check_insn_count from fault-inject.c.  When the injector is armed
and the instruction counter has reached sleepCycles, `faultDone` is set
to 1 first, then the plan is received and validated, and the injection
address `get_addr(row, set) + cacheWord * sizeof(arch_word_t)` (uint32
arithmetic) is computed and sent together with the actual cycle count;
this happens whether or not validation failed.  Returns the new state,
whether the invalid-parameter error was logged, and the list of values
sent over the socket (validity byte, cycle count, address). -/
def check_insn_count (st : FiState) (args : SocketArgs) : FiState × Bool × List Nat :=
  if st.faultDone = false ∧ st.plan.sleepCycles ≤ st.insnCount then
    let st1 := { st with faultDone := true }
    let received := receive_injection_info st1 args
    let st2 := received.1
    let addr0 := cache_get_addr_common (selectCache st2 st2.plan.cacheName)
                    st2.plan.cacheRow st2.plan.cacheSet
    let byteNum := st2.plan.cacheWord * 4 % wordMod
    let addr := (addr0 + byteNum) % wordMod
    (st2, received.2.1, [received.2.2, st2.insnCount, addr])
  else (st, false, [])

/-- Invariants that hold for every cache produced by init_cache_struct
with nonzero parameters and maintained by the access routines: valid
flag set, at least one way and one row, the table and round-robin array
sized by rows, the row mask covering exactly the row indices, every row
of length associativity, and every round-robin cursor in range. -/
def CacheWF (cp : Cache) : Prop :=
  cp.validFlag = true ∧
  1 ≤ cp.associativity ∧
  1 ≤ cp.rows ∧
  cp.table.length = cp.rows ∧
  cp.maskInfo.rowMask = cp.rows - 1 ∧
  (∀ row ∈ cp.table, row.length = cp.associativity) ∧
  cp.roundRobin.length = cp.rows ∧
  (∀ x ∈ cp.roundRobin, x < cp.associativity)

/-- A small concrete cache (2 rows, 1 way, 4-byte blocks) used as the
test fixture for the fault-injector counterexamples. -/
def fiTestCache : Cache :=
  init_cache_struct 8 1 4 ReplacePolicy.roundRobin AllocatePolicy.writeAllocate

/-- A concrete armed injector state over three copies of the test
cache, with the trigger already reached. -/
def fiTestState : FiState :=
  { faultDone := false
    insnCount := 5
    plan := { sleepCycles := 1, cacheRow := 0, cacheSet := 0, cacheWord := 0
              cacheName := CacheName.icache }
    icache := fiTestCache
    dcache := fiTestCache
    l2cache := fiTestCache }

/-- Socket arguments whose row (99) is out of range for the 2-row test
cache. -/
def fiBadArgs : SocketArgs :=
  { row := 99, set := 0, name := CacheName.icache, word := 0 }

/-- cache_get_next_victim only advances replacement state: the table,
the counters, the configuration, the mask info, the policies and the
validity flag of the cache are untouched. -/
theorem cache_get_next_victim_frame (cp : Cache) (rowIdx : Nat) :
    (cache_get_next_victim cp rowIdx).2.table = cp.table ∧
    (cache_get_next_victim cp rowIdx).2.load_hits = cp.load_hits ∧
    (cache_get_next_victim cp rowIdx).2.load_misses = cp.load_misses ∧
    (cache_get_next_victim cp rowIdx).2.store_hits = cp.store_hits ∧
    (cache_get_next_victim cp rowIdx).2.store_misses = cp.store_misses ∧
    (cache_get_next_victim cp rowIdx).2.compulsory = cp.compulsory ∧
    (cache_get_next_victim cp rowIdx).2.evictions = cp.evictions ∧
    (cache_get_next_victim cp rowIdx).2.cacheSize = cp.cacheSize ∧
    (cache_get_next_victim cp rowIdx).2.rows = cp.rows ∧
    (cache_get_next_victim cp rowIdx).2.associativity = cp.associativity ∧
    (cache_get_next_victim cp rowIdx).2.blockSize = cp.blockSize ∧
    (cache_get_next_victim cp rowIdx).2.validFlag = cp.validFlag ∧
    (cache_get_next_victim cp rowIdx).2.replacePolicy = cp.replacePolicy ∧
    (cache_get_next_victim cp rowIdx).2.allocPolicy = cp.allocPolicy ∧
    (cache_get_next_victim cp rowIdx).2.maskInfo = cp.maskInfo := by
  unfold cache_get_next_victim
  cases cp.replacePolicy <;> simp

/-- The victim index returned by cache_get_next_victim is a real way
index whenever the cache has at least one way and (for round-robin) the
cursor of the accessed row is in range. -/
theorem cache_get_next_victim_lt (cp : Cache) (rowIdx : Nat)
    (hassoc : 1 ≤ cp.associativity)
    (hrr : cp.replacePolicy = ReplacePolicy.roundRobin →
      cp.roundRobin.getD rowIdx 0 < cp.associativity) :
    (cache_get_next_victim cp rowIdx).1 < cp.associativity := by
  unfold cache_get_next_victim
  cases hpol : cp.replacePolicy with
  | random => exact Nat.mod_lt _ hassoc
  | roundRobin => exact hrr hpol

/-- The hit scan succeeds exactly when some way below the associativity
holds a valid entry with the requested tag. -/
theorem cache_row_hit_iff (assoc : Nat) (cacheRow : List CacheEntry) (tagBits : Nat) :
    cache_row_hit assoc cacheRow tagBits = true ↔
      ∃ i, i < assoc ∧ (cacheRow.getD i memsetEntry).dirty = 0 ∧
        (cacheRow.getD i memsetEntry).tag = tagBits := by
  unfold cache_row_hit
  rw [List.any_eq_true]
  constructor
  · rintro ⟨i, hmem, hp⟩
    rw [Bool.and_eq_true, beq_iff_eq, beq_iff_eq] at hp
    exact ⟨i, List.mem_range.mp hmem, hp.1, hp.2⟩
  · rintro ⟨i, hlt, h1, h2⟩
    refine ⟨i, List.mem_range.mpr hlt, ?_⟩
    rw [Bool.and_eq_true, beq_iff_eq, beq_iff_eq]
    exact ⟨h1, h2⟩

/-- A successful invalid-slot scan returns a way index below the
associativity. -/
theorem cache_first_invalid_lt {assoc : Nat} {cacheRow : List CacheEntry} {i : Nat}
    (h : cache_first_invalid assoc cacheRow = some i) : i < assoc := by
  unfold cache_first_invalid at h
  exact List.mem_range.mp (List.mem_of_find?_eq_some h)

/-- In-range rows of a well-formed table have length associativity. -/
theorem row_length_of_lt (cp : Cache) (rowIdx : Nat)
    (hlt : rowIdx < cp.table.length)
    (hrowlen : ∀ row ∈ cp.table, row.length = cp.associativity) :
    (cp.table.getD rowIdx []).length = cp.associativity := by
  rw [List.getD_eq_getElem?_getD, List.getElem?_eq_getElem hlt]
  exact hrowlen _ (List.getElem_mem hlt)

/-- Elements below a bound give a bounded getD when the default is
below the bound too. -/
theorem getD_lt_of_forall_lt {l : List Nat} {a i : Nat}
    (hall : ∀ x ∈ l, x < a) (ha : 0 < a) : l.getD i 0 < a := by
  rw [List.getD_eq_getElem?_getD]
  cases hx : l[i]? with
  | none => simpa using ha
  | some x => simpa using hall x (List.getElem?_mem hx)

/-- On a valid cache, a load whose row scan finds the tag returns HIT. -/
theorem cache_load_common_hit_of (cp : Cache) (vaddr : Nat)
    (hv : cp.validFlag = true)
    (hhit : cache_row_hit cp.associativity
      (cp.table.getD (((vaddr % wordMod) >>> cp.maskInfo.rowShift) &&& cp.maskInfo.rowMask) [])
      ((vaddr % wordMod) >>> cp.maskInfo.tagShift) = true) :
    (cache_load_common cp vaddr).1 = CacheResult.hit := by
  rw [List.getD_eq_getElem?_getD] at hhit
  unfold cache_load_common
  simp [hv, hhit]

/-- On a valid cache, a load hit bumps load_hits and changes nothing
else. -/
theorem cache_load_common_hit_state (cp : Cache) (vaddr : Nat)
    (hv : cp.validFlag = true)
    (hhit : cache_row_hit cp.associativity
      (cp.table.getD (((vaddr % wordMod) >>> cp.maskInfo.rowShift) &&& cp.maskInfo.rowMask) [])
      ((vaddr % wordMod) >>> cp.maskInfo.tagShift) = true) :
    (cache_load_common cp vaddr).2 = { cp with load_hits := cp.load_hits + 1 } := by
  rw [List.getD_eq_getElem?_getD] at hhit
  unfold cache_load_common
  simp [hv, hhit]

/-- On a valid cache with at least one way and in-range round-robin
cursors, a load miss installs `(tagBits, CACHE_NOT_DIRTY)` at some way
index below the associativity of the accessed row, and preserves the
validity flag, the mask info and the associativity. -/
theorem cache_load_common_miss_state (cp : Cache) (vaddr : Nat)
    (hv : cp.validFlag = true)
    (hassoc : 1 ≤ cp.associativity)
    (hrrbound : ∀ x ∈ cp.roundRobin, x < cp.associativity)
    (hhit : cache_row_hit cp.associativity
      (cp.table.getD (((vaddr % wordMod) >>> cp.maskInfo.rowShift) &&& cp.maskInfo.rowMask) [])
      ((vaddr % wordMod) >>> cp.maskInfo.tagShift) = false) :
    ∃ v, v < cp.associativity ∧
      (cache_load_common cp vaddr).2.table =
        cp.table.set (((vaddr % wordMod) >>> cp.maskInfo.rowShift) &&& cp.maskInfo.rowMask)
          ((cp.table.getD (((vaddr % wordMod) >>> cp.maskInfo.rowShift) &&& cp.maskInfo.rowMask) []).set v
            { tag := (vaddr % wordMod) >>> cp.maskInfo.tagShift, dirty := CACHE_NOT_DIRTY }) ∧
      (cache_load_common cp vaddr).2.validFlag = true ∧
      (cache_load_common cp vaddr).2.maskInfo = cp.maskInfo ∧
      (cache_load_common cp vaddr).2.associativity = cp.associativity := by
  simp only [cache_load_common]
  rw [if_neg (by simp [hv])]
  rw [if_neg (by rw [hhit]; exact Bool.false_ne_true)]
  cases hfi : cache_first_invalid cp.associativity
      (cp.table.getD (((vaddr % wordMod) >>> cp.maskInfo.rowShift) &&& cp.maskInfo.rowMask) []) with
  | some i =>
      refine ⟨i, cache_first_invalid_lt hfi, ?_, ?_, ?_, ?_⟩ <;> simp only [hfi] <;>
        first
          | rfl
          | exact hv
  | none =>
      have hvlt : (cache_get_next_victim { cp with load_misses := cp.load_misses + 1 }
          (((vaddr % wordMod) >>> cp.maskInfo.rowShift) &&& cp.maskInfo.rowMask)).1
          < cp.associativity := by
        apply cache_get_next_victim_lt
        · exact hassoc
        · intro _
          exact getD_lt_of_forall_lt hrrbound (Nat.lt_of_lt_of_le Nat.zero_lt_one hassoc)
      have hfr := cache_get_next_victim_frame { cp with load_misses := cp.load_misses + 1 }
          (((vaddr % wordMod) >>> cp.maskInfo.rowShift) &&& cp.maskInfo.rowMask)
      refine ⟨_, hvlt, ?_, ?_, ?_, ?_⟩ <;> simp only [hfi] <;>
        first
          | rw [hfr.1]
          | (rw [hfr.2.2.2.2.2.2.2.2.2.2.2.1]; exact hv)
          | exact hfr.2.2.2.2.2.2.2.2.2.2.2.2.2.2
          | exact hfr.2.2.2.2.2.2.2.2.2.1

/-- Claim C8: for every initialized (not torn down) cache and every
address, a load immediately following a load of the same address, with
no intervening operation, returns HIT: the first load leaves the
(row, tag) pair resident so the second lookup matches. -/
theorem c8_load_after_load_hits (cp : Cache) (vaddr : Nat) (h : CacheWF cp) :
    (cache_load_common (cache_load_common cp vaddr).2 vaddr).1 = CacheResult.hit := by
  obtain ⟨hv, hassoc, hrows, hlen, hmask, hrowlen, hrrlen, hrrbound⟩ := h
  have hrowlt : (((vaddr % wordMod) >>> cp.maskInfo.rowShift) &&& cp.maskInfo.rowMask)
      < cp.table.length := by
    have hle : (((vaddr % wordMod) >>> cp.maskInfo.rowShift) &&& cp.maskInfo.rowMask)
        ≤ cp.maskInfo.rowMask := Nat.and_le_right
    omega
  by_cases hhit : cache_row_hit cp.associativity
      (cp.table.getD (((vaddr % wordMod) >>> cp.maskInfo.rowShift) &&& cp.maskInfo.rowMask) [])
      ((vaddr % wordMod) >>> cp.maskInfo.tagShift) = true
  · rw [cache_load_common_hit_state cp vaddr hv hhit]
    exact cache_load_common_hit_of _ vaddr hv hhit
  · rw [Bool.not_eq_true] at hhit
    obtain ⟨v, hvlt, htab, hv2, hmask2, hassoc2⟩ :=
      cache_load_common_miss_state cp vaddr hv hassoc hrrbound hhit
    apply cache_load_common_hit_of _ vaddr hv2
    rw [hmask2, hassoc2, htab]
    have hrowlen2 : (cp.table.getD (((vaddr % wordMod) >>> cp.maskInfo.rowShift) &&& cp.maskInfo.rowMask) []).length = cp.associativity :=
      row_length_of_lt cp _ hrowlt hrowlen
    have hgetrow : ((cp.table.set (((vaddr % wordMod) >>> cp.maskInfo.rowShift) &&& cp.maskInfo.rowMask)
        ((cp.table.getD (((vaddr % wordMod) >>> cp.maskInfo.rowShift) &&& cp.maskInfo.rowMask) []).set v
          { tag := (vaddr % wordMod) >>> cp.maskInfo.tagShift, dirty := CACHE_NOT_DIRTY })).getD
        (((vaddr % wordMod) >>> cp.maskInfo.rowShift) &&& cp.maskInfo.rowMask) []) =
        ((cp.table.getD (((vaddr % wordMod) >>> cp.maskInfo.rowShift) &&& cp.maskInfo.rowMask) []).set v
          { tag := (vaddr % wordMod) >>> cp.maskInfo.tagShift, dirty := CACHE_NOT_DIRTY }) := by
      rw [List.getD_eq_getElem?_getD, List.getElem?_set_self hrowlt]
      rfl
    rw [hgetrow]
    rw [cache_row_hit_iff]
    refine ⟨v, hvlt, ?_, ?_⟩
    · rw [List.getD_eq_getElem?_getD, List.getElem?_set_self (by rw [hrowlen2]; exact hvlt)]
      rfl
    · rw [List.getD_eq_getElem?_getD, List.getElem?_set_self (by rw [hrowlen2]; exact hvlt)]
      rfl

/-- Witness for C8 at a concrete cache and address: a 2-row direct
mapped cache, loading address 0 twice. -/
theorem c8_load_after_load_hits_witness :
    (cache_load_common (cache_load_common
      (init_cache_struct 8 1 4 ReplacePolicy.roundRobin AllocatePolicy.writeAllocate) 0).2 0).1
      = CacheResult.hit :=
  c8_load_after_load_hits
    (init_cache_struct 8 1 4 ReplacePolicy.roundRobin AllocatePolicy.writeAllocate) 0
    (by unfold CacheWF; decide)

/-- Claim C1 counterexample: on a fresh write-allocate cache a store to
address 0 misses, yet afterwards the accessed row (row 0) contains no
valid entry matching the request's tag (tag 0) and the whole table is
unchanged, refuting the claim that a write-allocating store miss
performs the same fill as a load. -/
theorem c1_store_counterexample :
    (init_cache_struct 8 1 4 ReplacePolicy.roundRobin AllocatePolicy.writeAllocate).allocPolicy
        = AllocatePolicy.writeAllocate ∧
    (cache_store_common (init_cache_struct 8 1 4 ReplacePolicy.roundRobin
        AllocatePolicy.writeAllocate) 0).1 = CacheResult.miss ∧
    cache_row_hit
        (cache_store_common (init_cache_struct 8 1 4 ReplacePolicy.roundRobin
          AllocatePolicy.writeAllocate) 0).2.associativity
        ((cache_store_common (init_cache_struct 8 1 4 ReplacePolicy.roundRobin
          AllocatePolicy.writeAllocate) 0).2.table.getD 0 []) 0 = false ∧
    (cache_store_common (init_cache_struct 8 1 4 ReplacePolicy.roundRobin
        AllocatePolicy.writeAllocate) 0).2.table
      = (init_cache_struct 8 1 4 ReplacePolicy.roundRobin AllocatePolicy.writeAllocate).table := by
  decide

/-- Claim C1 (amended): a store never installs an entry; the table is
unchanged by every store, as are the load and miss-type counters, the
validity flag and the mask info.  Under NO_WRITE_ALLOCATE the
replacement state is untouched as well.  Under WRITE_ALLOCATE the
victim-selection block runs on hits and misses alike, but it leaves the
replacement state untouched whenever the accessed row still holds an
invalid entry.  On a valid cache a hit bumps exactly store_hits and a
miss exactly store_misses. -/
theorem c1_store_no_fill (cp : Cache) (vaddr : Nat) :
    (cache_store_common cp vaddr).2.table = cp.table ∧
    (cache_store_common cp vaddr).2.load_hits = cp.load_hits ∧
    (cache_store_common cp vaddr).2.load_misses = cp.load_misses ∧
    (cache_store_common cp vaddr).2.compulsory = cp.compulsory ∧
    (cache_store_common cp vaddr).2.evictions = cp.evictions ∧
    (cache_store_common cp vaddr).2.validFlag = cp.validFlag ∧
    (cache_store_common cp vaddr).2.maskInfo = cp.maskInfo ∧
    (cp.allocPolicy = AllocatePolicy.noWriteAllocate →
      (cache_store_common cp vaddr).2.replacePrev = cp.replacePrev ∧
      (cache_store_common cp vaddr).2.roundRobin = cp.roundRobin) ∧
    (cp.allocPolicy = AllocatePolicy.writeAllocate →
      ∀ i, cache_first_invalid cp.associativity
        (cp.table.getD (((vaddr % wordMod) >>> cp.maskInfo.rowShift) &&& cp.maskInfo.rowMask) [])
        = some i →
      (cache_store_common cp vaddr).2.replacePrev = cp.replacePrev ∧
      (cache_store_common cp vaddr).2.roundRobin = cp.roundRobin) ∧
    (cp.validFlag = true →
      ((cache_store_common cp vaddr).1 = CacheResult.hit →
        (cache_store_common cp vaddr).2.store_hits = cp.store_hits + 1 ∧
        (cache_store_common cp vaddr).2.store_misses = cp.store_misses) ∧
      ((cache_store_common cp vaddr).1 = CacheResult.miss →
        (cache_store_common cp vaddr).2.store_misses = cp.store_misses + 1 ∧
        (cache_store_common cp vaddr).2.store_hits = cp.store_hits)) := by
  obtain ⟨hf1, hf2, hf3, hf4, hf5, hf6, hf7, hf8, hf9, hf10, hf11, hf12, hf13, hf14, hf15⟩ :=
    cache_get_next_victim_frame cp
      (((vaddr % wordMod) >>> cp.maskInfo.rowShift) &&& cp.maskInfo.rowMask)
  refine ⟨?_, ?_, ?_, ?_, ?_, ?_, ?_, ?_, ?_, ?_⟩
  · simp only [cache_store_common]
    repeat' split
    all_goals first | rfl | exact hf1
  · simp only [cache_store_common]
    repeat' split
    all_goals first | rfl | exact hf2
  · simp only [cache_store_common]
    repeat' split
    all_goals first | rfl | exact hf3
  · simp only [cache_store_common]
    repeat' split
    all_goals first | rfl | exact hf6
  · simp only [cache_store_common]
    repeat' split
    all_goals first | rfl | exact hf7
  · simp only [cache_store_common]
    repeat' split
    all_goals first | rfl | exact hf12
  · simp only [cache_store_common]
    repeat' split
    all_goals first | rfl | exact hf15
  · intro hnwa
    refine ⟨?_, ?_⟩ <;>
      ( simp only [cache_store_common]
        simp only [hnwa]
        repeat' split ) <;>
      first | rfl | simp_all
  · intro hwa i hfi
    refine ⟨?_, ?_⟩ <;>
      ( simp only [cache_store_common]
        simp only [hwa, hfi]
        repeat' split ) <;>
      first | rfl | simp_all
  · intro hv
    by_cases hhit : cache_row_hit cp.associativity
        (cp.table.getD (((vaddr % wordMod) >>> cp.maskInfo.rowShift) &&& cp.maskInfo.rowMask) [])
        ((vaddr % wordMod) >>> cp.maskInfo.tagShift) = true
    · constructor
      · intro _
        constructor <;>
          ( simp only [cache_store_common]
            rw [if_neg (by simp [hv]), if_pos hhit]
            repeat' split ) <;>
          simp [hf4, hf5]
      · intro hres
        simp only [cache_store_common] at hres
        rw [if_neg (by simp [hv]), if_pos hhit] at hres
        simp at hres
    · constructor
      · intro hres
        simp only [cache_store_common] at hres
        rw [if_neg (by simp [hv]), if_neg hhit] at hres
        simp at hres
      · intro _
        constructor <;>
          ( simp only [cache_store_common]
            rw [if_neg (by simp [hv]), if_neg hhit]
            repeat' split ) <;>
          simp [hf4, hf5]

/-- Witness for C1 (amended) at a concrete write-allocate cache: the
store to address 0 leaves the table and the round-robin state unchanged
(row 0 still has an invalid slot) and bumps only store_misses. -/
theorem c1_store_no_fill_witness :
    (cache_store_common (init_cache_struct 8 1 4 ReplacePolicy.roundRobin
        AllocatePolicy.writeAllocate) 0).2.table
      = (init_cache_struct 8 1 4 ReplacePolicy.roundRobin AllocatePolicy.writeAllocate).table ∧
    (cache_store_common (init_cache_struct 8 1 4 ReplacePolicy.roundRobin
        AllocatePolicy.writeAllocate) 0).2.roundRobin
      = (init_cache_struct 8 1 4 ReplacePolicy.roundRobin AllocatePolicy.writeAllocate).roundRobin ∧
    (cache_store_common (init_cache_struct 8 1 4 ReplacePolicy.roundRobin
        AllocatePolicy.writeAllocate) 0).2.store_misses
      = (init_cache_struct 8 1 4 ReplacePolicy.roundRobin AllocatePolicy.writeAllocate).store_misses
          + 1 :=
  ⟨(c1_store_no_fill (init_cache_struct 8 1 4 ReplacePolicy.roundRobin
      AllocatePolicy.writeAllocate) 0).1,
   ((c1_store_no_fill (init_cache_struct 8 1 4 ReplacePolicy.roundRobin
      AllocatePolicy.writeAllocate) 0).2.2.2.2.2.2.2.2.1 rfl 0 (by decide)).2,
   (((c1_store_no_fill (init_cache_struct 8 1 4 ReplacePolicy.roundRobin
      AllocatePolicy.writeAllocate) 0).2.2.2.2.2.2.2.2.2 rfl).2 (by decide)).1⟩

/-- Claim C2: the compulsory and eviction counters are never updated by
the code.  On a fresh cache a load of address 0 misses and fills a slot
whose prior entry was invalid (a compulsory fill), yet compulsory stays
0 and evictions stays 0, so compulsory + evictions differs from
load_misses (1) and from the number of invalid-prior fills (1). -/
theorem c2_miss_counters_never_updated :
    (cache_load_common (init_cache_struct 8 1 4 ReplacePolicy.roundRobin
        AllocatePolicy.writeAllocate) 0).1 = CacheResult.miss ∧
    (((init_cache_struct 8 1 4 ReplacePolicy.roundRobin
        AllocatePolicy.writeAllocate).table.getD 0 []).getD 0 memsetEntry).dirty = CACHE_DIRTY ∧
    ((((cache_load_common (init_cache_struct 8 1 4 ReplacePolicy.roundRobin
        AllocatePolicy.writeAllocate) 0).2.table.getD 0 []).getD 0 memsetEntry).dirty
      = CACHE_NOT_DIRTY) ∧
    (cache_load_common (init_cache_struct 8 1 4 ReplacePolicy.roundRobin
        AllocatePolicy.writeAllocate) 0).2.load_misses = 1 ∧
    (cache_load_common (init_cache_struct 8 1 4 ReplacePolicy.roundRobin
        AllocatePolicy.writeAllocate) 0).2.compulsory = 0 ∧
    (cache_load_common (init_cache_struct 8 1 4 ReplacePolicy.roundRobin
        AllocatePolicy.writeAllocate) 0).2.evictions = 0 ∧
    ¬ ((cache_load_common (init_cache_struct 8 1 4 ReplacePolicy.roundRobin
          AllocatePolicy.writeAllocate) 0).2.compulsory
        + (cache_load_common (init_cache_struct 8 1 4 ReplacePolicy.roundRobin
          AllocatePolicy.writeAllocate) 0).2.evictions
        = (cache_load_common (init_cache_struct 8 1 4 ReplacePolicy.roundRobin
          AllocatePolicy.writeAllocate) 0).2.load_misses) := by
  decide

/-- Claim C3 counterexample: on a freshly initialized cache the entry at
(0, 0) is not valid (its dirty byte is 0xFF from the memset), yet
get_addr(0, 0) reconstructs an address from the stale all-ones tag and
returns 0xFFFFFFF8, not the 0 the claim requires for an invalid entry. -/
theorem c3_get_addr_counterexample :
    (init_cache_struct 8 1 4 ReplacePolicy.roundRobin
        AllocatePolicy.writeAllocate).validFlag = true ∧
    ((((init_cache_struct 8 1 4 ReplacePolicy.roundRobin
        AllocatePolicy.writeAllocate).table.getD 0 []).getD 0 memsetEntry).dirty ≠ 0) ∧
    cache_get_addr_common (init_cache_struct 8 1 4 ReplacePolicy.roundRobin
        AllocatePolicy.writeAllocate) 0 0 = 4294967288 ∧
    cache_get_addr_common (init_cache_struct 8 1 4 ReplacePolicy.roundRobin
        AllocatePolicy.writeAllocate) 0 0 ≠ 0 := by
  decide

/-- Writing index i of a list and reading it back with getD returns the
written element when i is in range. -/
theorem setGetD_eq {α : Type} {l : List α} {i : Nat} (x d : α) (h : i < l.length) :
    (l.set i x).getD i d = x := by
  rw [List.getD_eq_getElem?_getD, List.getElem?_set_self (by simpa using h)]
  rfl

/-- Writing index i of a list does not change getD at any other index. -/
theorem setGetD_ne {α : Type} {l : List α} {i j : Nat} (x d : α) (h : i ≠ j) :
    (l.set i x).getD j d = l.getD j d := by
  rw [List.getD_eq_getElem?_getD, List.getElem?_set_ne h, List.getD_eq_getElem?_getD]

/-- Claim C3 (amended): get_addr never consults the entry's validity:
whenever the cache struct's validity flag is set, it returns
`(tag << tag_shift) | (row << row_shift)` in uint32 arithmetic built
from the stored (possibly stale) tag — invalidating the entry does not
change the result — and the low block-offset bits of the result are
zero; it returns 0 exactly when the cache's validity flag is cleared. -/
theorem c3_get_addr_reconstruction (cp : Cache) (row way b r : Nat)
    (hrow : cp.maskInfo.rowShift = b)
    (htag : cp.maskInfo.tagShift = b + r)
    (hb : b ≤ 32)
    (hrowlt : row < cp.table.length)
    (hway : way < (cp.table.getD row []).length) :
    (cp.validFlag = false → cache_get_addr_common cp row way = 0) ∧
    (cp.validFlag = true →
      cache_get_addr_common cp row way
        = ((((cp.table.getD row []).getD way memsetEntry).tag <<< (b + r)) % wordMod
            ||| (row <<< b)) % wordMod ∧
      cache_get_addr_common cp row way % 2 ^ b = 0 ∧
      cache_get_addr_common (cache_invalidate_block_common cp row way) row way
        = cache_get_addr_common cp row way) := by
  constructor
  · intro hv
    unfold cache_get_addr_common
    rw [if_pos hv]
  · intro hv
    have hmod : wordMod = 2 ^ 32 := by norm_num [wordMod]
    have hval : cache_get_addr_common cp row way
        = ((((cp.table.getD row []).getD way memsetEntry).tag <<< (b + r)) % wordMod
            ||| (row <<< b)) % wordMod := by
      unfold cache_get_addr_common
      rw [if_neg (by simp [hv]), hrow, htag]
    refine ⟨hval, ?_, ?_⟩
    · rw [hval, hmod]
      rw [Nat.mod_mod_of_dvd _ (pow_dvd_pow 2 hb)]
      rw [← Nat.and_pow_two_sub_one_eq_mod, Nat.and_distrib_right]
      have hmul : ∀ t : Nat, t * (2 ^ b * 2 ^ r) % 2 ^ b = 0 := by
        intro t
        rw [show t * (2 ^ b * 2 ^ r) = t * 2 ^ r * 2 ^ b by ring]
        exact Nat.mul_mod_left _ _
      have h1 : (((cp.table.getD row []).getD way memsetEntry).tag <<< (b + r)) % 2 ^ 32
          &&& 2 ^ b - 1 = 0 := by
        rw [Nat.and_pow_two_sub_one_eq_mod]
        rw [Nat.mod_mod_of_dvd _ (pow_dvd_pow 2 hb)]
        rw [Nat.shiftLeft_eq, pow_add]
        exact hmul _
      have h2 : (row <<< b) &&& 2 ^ b - 1 = 0 := by
        rw [Nat.and_pow_two_sub_one_eq_mod, Nat.shiftLeft_eq]
        exact Nat.mul_mod_left row (2 ^ b)
      rw [h1, h2]
      decide
    · have htag2 : (((cache_invalidate_block_common cp row way).table.getD row []).getD
          way memsetEntry).tag = ((cp.table.getD row []).getD way memsetEntry).tag := by
        unfold cache_invalidate_block_common
        rw [if_neg (by simp [hv])]
        rw [setGetD_eq _ _ hrowlt, setGetD_eq _ _ hway]
      have hvf : (cache_invalidate_block_common cp row way).validFlag = true := by
        unfold cache_invalidate_block_common
        rw [if_neg (by simp [hv])]
        exact hv
      have hmi : (cache_invalidate_block_common cp row way).maskInfo = cp.maskInfo := by
        unfold cache_invalidate_block_common
        rw [if_neg (by simp [hv])]
      have hlhs : cache_get_addr_common (cache_invalidate_block_common cp row way) row way
          = (((((cache_invalidate_block_common cp row way).table.getD row []).getD way
              memsetEntry).tag <<< cp.maskInfo.tagShift) % wordMod
              ||| (row <<< cp.maskInfo.rowShift)) % wordMod := by
        unfold cache_get_addr_common
        rw [if_neg (by simp [hvf]), hmi]
      rw [hlhs, htag2]
      unfold cache_get_addr_common
      rw [if_neg (by simp [hv])]

/-- Witness for C3 (amended) at a freshly initialized cache: the entry
at (0, 0) is invalid, yet get_addr returns the stale reconstruction
with its two block-offset bits zero, unchanged by invalidation. -/
theorem c3_get_addr_reconstruction_witness :
    cache_get_addr_common (init_cache_struct 8 1 4 ReplacePolicy.roundRobin
        AllocatePolicy.writeAllocate) 0 0 % 2 ^ 2 = 0 ∧
    cache_get_addr_common (cache_invalidate_block_common (init_cache_struct 8 1 4
        ReplacePolicy.roundRobin AllocatePolicy.writeAllocate) 0 0) 0 0
      = cache_get_addr_common (init_cache_struct 8 1 4 ReplacePolicy.roundRobin
        AllocatePolicy.writeAllocate) 0 0 :=
  ⟨(((c3_get_addr_reconstruction (init_cache_struct 8 1 4 ReplacePolicy.roundRobin
      AllocatePolicy.writeAllocate) 0 0 2 1 (by decide) (by decide) (by decide) (by decide)
      (by decide)).2 (by decide)).2).1,
   (((c3_get_addr_reconstruction (init_cache_struct 8 1 4 ReplacePolicy.roundRobin
      AllocatePolicy.writeAllocate) 0 0 2 1 (by decide) (by decide) (by decide) (by decide)
      (by decide)).2 (by decide)).2).2⟩

/-- Claim C9: for every valid cache and in-range (row, way),
invalidate_block changes only the dirty byte of that single entry: the
entry's tag, every other entry, all hit/miss counters and the
replacement state are unchanged, and a subsequent get_addr(row, way)
still returns the address reconstructed from the stale tag of the
invalidated line — the same value as before the invalidation, not 0. -/
theorem c9_invalidate_block_frame (cp : Cache) (row way : Nat)
    (hv : cp.validFlag = true)
    (hrowlt : row < cp.table.length)
    (hway : way < (cp.table.getD row []).length) :
    (((cache_invalidate_block_common cp row way).table.getD row []).getD way memsetEntry).dirty
      = CACHE_DIRTY ∧
    (((cache_invalidate_block_common cp row way).table.getD row []).getD way memsetEntry).tag
      = ((cp.table.getD row []).getD way memsetEntry).tag ∧
    (∀ r2 w2, r2 ≠ row ∨ w2 ≠ way →
      ((cache_invalidate_block_common cp row way).table.getD r2 []).getD w2 memsetEntry
        = (cp.table.getD r2 []).getD w2 memsetEntry) ∧
    (cache_invalidate_block_common cp row way).load_hits = cp.load_hits ∧
    (cache_invalidate_block_common cp row way).load_misses = cp.load_misses ∧
    (cache_invalidate_block_common cp row way).store_hits = cp.store_hits ∧
    (cache_invalidate_block_common cp row way).store_misses = cp.store_misses ∧
    (cache_invalidate_block_common cp row way).compulsory = cp.compulsory ∧
    (cache_invalidate_block_common cp row way).evictions = cp.evictions ∧
    (cache_invalidate_block_common cp row way).replacePrev = cp.replacePrev ∧
    (cache_invalidate_block_common cp row way).roundRobin = cp.roundRobin ∧
    (cache_invalidate_block_common cp row way).validFlag = cp.validFlag ∧
    cache_get_addr_common (cache_invalidate_block_common cp row way) row way
      = cache_get_addr_common cp row way := by
  have hbody : cache_invalidate_block_common cp row way
      = { cp with table := cp.table.set row ((cp.table.getD row []).set way
          { (cp.table.getD row []).getD way memsetEntry with dirty := CACHE_DIRTY }) } := by
    unfold cache_invalidate_block_common
    rw [if_neg (by simp [hv])]
  rw [hbody]
  refine ⟨?_, ?_, ?_, rfl, rfl, rfl, rfl, rfl, rfl, rfl, rfl, rfl, ?_⟩
  · rw [setGetD_eq _ _ hrowlt, setGetD_eq _ _ hway]
  · rw [setGetD_eq _ _ hrowlt, setGetD_eq _ _ hway]
  · intro r2 w2 hne
    rcases hne with hne | hne
    · rw [setGetD_ne _ _ (fun hc => hne hc.symm)]
    · by_cases hr2 : r2 = row
      · subst hr2
        rw [setGetD_eq _ _ hrowlt, setGetD_ne _ _ (fun hc => hne hc.symm)]
      · rw [setGetD_ne _ _ (fun hc => hr2 hc.symm)]
  · unfold cache_get_addr_common
    rw [if_neg (by simp [hv]), if_neg (by simp [hv])]
    have : ((cp.table.set row ((cp.table.getD row []).set way
        { (cp.table.getD row []).getD way memsetEntry with dirty := CACHE_DIRTY })).getD row
        []).getD way memsetEntry
        = { (cp.table.getD row []).getD way memsetEntry with dirty := CACHE_DIRTY } := by
      rw [setGetD_eq _ _ hrowlt, setGetD_eq _ _ hway]
    rw [this]

/-- Witness for C9 at a concrete cache after one load (so the entry at
(0, 0) is valid with tag 0): invalidating it flips only the dirty byte
and get_addr still returns the reconstruction from the stale tag. -/
theorem c9_invalidate_block_frame_witness :
    (((cache_invalidate_block_common
        (cache_load_common (init_cache_struct 8 1 4 ReplacePolicy.roundRobin
          AllocatePolicy.writeAllocate) 0).2 0 0).table.getD 0 []).getD 0 memsetEntry).dirty
      = CACHE_DIRTY ∧
    cache_get_addr_common (cache_invalidate_block_common
        (cache_load_common (init_cache_struct 8 1 4 ReplacePolicy.roundRobin
          AllocatePolicy.writeAllocate) 0).2 0 0) 0 0
      = cache_get_addr_common
        (cache_load_common (init_cache_struct 8 1 4 ReplacePolicy.roundRobin
          AllocatePolicy.writeAllocate) 0).2 0 0 :=
  ⟨(c9_invalidate_block_frame
      (cache_load_common (init_cache_struct 8 1 4 ReplacePolicy.roundRobin
        AllocatePolicy.writeAllocate) 0).2 0 0 (by decide) (by decide) (by decide)).1,
   (c9_invalidate_block_frame
      (cache_load_common (init_cache_struct 8 1 4 ReplacePolicy.roundRobin
        AllocatePolicy.writeAllocate) 0).2 0 0 (by decide) (by decide)
        (by decide)).2.2.2.2.2.2.2.2.2.2.2.2⟩

/-- Claim C4: the word-index bound in the validation is wrong in the
code: cacheWord is compared against blockSize * sizeof(word) - 1
(= 127 for 32-byte blocks) instead of blockSize / sizeof(word) - 1
(= 7).  On the default D-cache configuration a plan with
word_in_block = 8, the first out-of-range word index, is accepted as
valid (0) — as is 127 — while 128 is the first rejected value. -/
theorem c4_validate_word_bound_bug :
    (init_cache_struct 32768 4 32 ReplacePolicy.random
        AllocatePolicy.noWriteAllocate).blockSize / 4 ≤ 8 ∧
    cache_validate_injection_common
      (init_cache_struct 32768 4 32 ReplacePolicy.random AllocatePolicy.noWriteAllocate)
      { sleepCycles := 0, cacheRow := 0, cacheSet := 0, cacheWord := 8
        cacheName := CacheName.dcache } = 0 ∧
    cache_validate_injection_common
      (init_cache_struct 32768 4 32 ReplacePolicy.random AllocatePolicy.noWriteAllocate)
      { sleepCycles := 0, cacheRow := 0, cacheSet := 0, cacheWord := 127
        cacheName := CacheName.dcache } = 0 ∧
    cache_validate_injection_common
      (init_cache_struct 32768 4 32 ReplacePolicy.random AllocatePolicy.noWriteAllocate)
      { sleepCycles := 0, cacheRow := 0, cacheSet := 0, cacheWord := 128
        cacheName := CacheName.dcache } = -1 := by
  decide

/-- A value of the form x & 0x10 is 0 or 16, never 1. -/
theorem and_x10_ne_one (x : Nat) : x &&& 0x10 ≠ 1 := by
  intro h
  have h0 := congrArg (fun y => y.testBit 0) h
  simp only [Nat.testBit_and] at h0
  rw [show Nat.testBit 0x10 0 = false by decide, show Nat.testBit 1 0 = true by decide] at h0
  simp at h0

/-- Claim C5: the operand extraction of the regular load/store decoder
computes `index = (P == 0x1)` where `P = op1 & 0x10` is either 0 or
0x10, so the decoded index flag is never set; at 0xE5912000
(LDR r2, [r1], the P bit set) the decoder returns LD_REG_IMM with
index = 0, although P != 0; the wback flag ((P == 0) || W) is 0 there,
matching the claim. -/
theorem c5_index_flag_never_set :
    ((0xE5912000 >>> 20) &&& 0x1F) &&& 0x10 = 0x10 ∧
    (decode_load_store InsnOp.zero 0xE5912000).1 = LD_REG_IMM ∧
    (decode_load_store InsnOp.zero 0xE5912000).2.index = 0 ∧
    (decode_load_store InsnOp.zero 0xE5912000).2.wback = 0 ∧
    (∀ d insn, (decode_load_store d insn).2.index = d.index ∨
      (decode_load_store d insn).2.index = 0) := by
  refine ⟨by decide, by decide, by decide, by decide, ?_⟩
  intro d insn
  simp only [decode_load_store]
  repeat' split
  all_goals first
    | (left; rfl)
    | (right; rfl)
    | (exfalso; exact and_x10_ne_one _ (by assumption))

/-- Claim C7: get_insn_bits never refuses an instruction word whose
byte size differs from 4; the `insn_size != 4` check in the source has
an empty body, so a 2-byte (Thumb-sized) input is silently assembled
little-endian and returned just like a 4-byte ARM word is. -/
theorem c7_get_insn_bits_accepts_short_input :
    get_insn_bits [0x00, 0xBF] = 0xBF00 ∧
    get_insn_bits [0x00, 0x20, 0x91, 0xE5] = 0xE5912000 := by
  decide

/-- Claim C10: whenever the coprocessor decoder classifies an
instruction (nonzero result), it stores the coprocessor number as
bits [11:8] with the lowest bit masked off (& 0xE); consequently the
recognizers' coproc == 0xE test accepts both the coprocessor-14 and
the coprocessor-15 encodings. -/
theorem c10_coproc_masked (insn : Nat) (d : InsnOp)
    (h : (INSN_IS_COPROC_LOAD_STORE d insn).1 ≠ NOT_LOAD_STORE) :
    (INSN_IS_COPROC_LOAD_STORE d insn).2.coproc = ((insn >>> 8) &&& 0xF) &&& 0xE ∧
    ((insn >>> 8) &&& 0xF = 0xE ∨ (insn >>> 8) &&& 0xF = 0xF →
      (INSN_IS_COPROC_LOAD_STORE d insn).2.coproc = 0xE) := by
  by_cases hrv : coproc_classify insn = 0
  · exact absurd (show (INSN_IS_COPROC_LOAD_STORE d insn).1 = NOT_LOAD_STORE by
      simp only [INSN_IS_COPROC_LOAD_STORE]
      rw [if_pos hrv]
      exact hrv) h
  · have h1 : (INSN_IS_COPROC_LOAD_STORE d insn).2.coproc = ((insn >>> 8) &&& 0xF) &&& 0xE := by
      simp only [INSN_IS_COPROC_LOAD_STORE]
      rw [if_neg hrv]
    refine ⟨h1, ?_⟩
    intro hc
    rw [h1]
    rcases hc with hc | hc <;> rw [hc] <;> decide

/-- Witness for C10 at the concrete DCISW MCR encoding
`mcr p15, 0, r11, c7, c6, 2` (0xEE07BF56), whose coprocessor field is
0xF: the decoder classifies it and records coproc = 0xE, so the
recognizers' coproc test accepts it. -/
theorem c10_coproc_masked_witness :
    (INSN_IS_COPROC_LOAD_STORE InsnOp.zero 0xEE07BF56).1 ≠ NOT_LOAD_STORE ∧
    (INSN_IS_COPROC_LOAD_STORE InsnOp.zero 0xEE07BF56).2.coproc = 0xE :=
  ⟨by decide, (c10_coproc_masked 0xEE07BF56 InsnOp.zero (by decide)).2 (Or.inr (by decide))⟩

/-- Claim C6 counterexample: with the injector armed and the trigger
reached, socket arguments whose row is out of range for the selected
cache are flagged by validation, yet check_insn_count still fires and
sets faultDone: the injector is inert afterwards (a second callback is
a no-op), contradicting the claim that it remains ARMED for a retry. -/
theorem c6_injector_counterexample :
    cache_validate_injection_common fiTestCache
      { sleepCycles := 1, cacheRow := 99, cacheSet := 0, cacheWord := 0
        cacheName := CacheName.icache } ≠ 0 ∧
    (check_insn_count fiTestState fiBadArgs).2.1 = true ∧
    (check_insn_count fiTestState fiBadArgs).1.faultDone = true ∧
    check_insn_count (check_insn_count fiTestState fiBadArgs).1 fiBadArgs
      = ((check_insn_count fiTestState fiBadArgs).1, false, []) := by
  decide

/-- Claim C6 (amended): the injector does not stay ARMED on an
out-of-range plan: check_insn_count sets faultDone at the first trigger
regardless of the validation outcome (the range error is only logged),
and every later callback is a no-op; only one firing ever happens,
whether or not the received parameters were valid. -/
theorem c6_injector_inert_after_first_fire (st : FiState) (args args2 : SocketArgs)
    (harm : st.faultDone = false)
    (htrig : st.plan.sleepCycles ≤ st.insnCount) :
    (check_insn_count st args).1.faultDone = true ∧
    check_insn_count (check_insn_count st args).1 args2
      = ((check_insn_count st args).1, false, []) := by
  have h1 : (check_insn_count st args).1.faultDone = true := by
    unfold check_insn_count
    rw [if_pos ⟨harm, htrig⟩]
    rfl
  have h2 : ∀ Y : FiState, Y.faultDone = true → ∀ a2 : SocketArgs,
      check_insn_count Y a2 = (Y, false, []) := by
    intro Y hY a2
    unfold check_insn_count
    rw [if_neg (by simp [hY])]
  exact ⟨h1, h2 _ h1 args2⟩

/-- Witness for C6 (amended) at the concrete armed state and
out-of-range socket arguments. -/
theorem c6_injector_inert_witness :
    (check_insn_count fiTestState fiBadArgs).1.faultDone = true ∧
    check_insn_count (check_insn_count fiTestState fiBadArgs).1 fiBadArgs
      = ((check_insn_count fiTestState fiBadArgs).1, false, []) :=
  c6_injector_inert_after_first_fire fiTestState fiBadArgs fiBadArgs (by decide) (by decide)
